import Mathlib

/-!
# Verification of OpenLEGO's component adapters

A shallow embedding of `openlego/components.py` (the `XMLComponent` and
`DisciplineComponent` classes) and `openlego/core/exec_comp.py` (the
delay-injecting `ExecComp` wrapper), together with theorems settling the
specified behavioural claims.

Modelling conventions:
* Python strings are Lean `String`s; file paths manipulated character by
  character are `List Char` (a Lean `String` is a wrapper around such a list).
* A Python `dict` (insertion ordered, key update in place) is an association
  list `List (String × V)` manipulated by `dictUpdate`.
* Exceptions are explicit: a function that can raise returns its result
  together with an `Option PyErr`, where mutations performed before the
  raise are retained (Python mutates in place).
* The external XML utilities (`xml_to_dict`, `xpath_to_param`,
  `param_to_xpath`, `xml_merge`, `xml_safe_create_element`) and the host
  framework (OpenMDAO) are out of scope per the specification; they are
  abstracted: a parsed XML document is the list of (xpath, value) pairs
  `xml_to_dict` would return, `xpath_to_param` is an arbitrary function
  parameter, and side effects on the filesystem / host are recorded as an
  explicit event trace.
-/

/-- Python exception kinds relevant to the modelled code paths. -/
inductive PyErr where
  | valueError
  | typeError
  | indexError
  deriving DecidableEq, Repr

/-- Python `dict` update (`d[k] = v` / `d.update({k: v})`): an existing key
keeps its position and gets the new value, a fresh key is appended. -/
def dictUpdate {V : Type} (d : List (String × V)) (k : String) (v : V) :
    List (String × V) :=
  if (d.map Prod.fst).contains k then
    d.map (fun p => if p.1 = k then (k, v) else p)
  else
    d ++ [(k, v)]

/-- `XMLComponent.set_inputs_from_xml` (and symmetrically
`set_outputs_from_xml`): the body of the method after `clear()` — fold the
(xpath, value) pairs of `xml_to_dict(input_xml)` through
`name = xpath_to_param(xpath); mapping.update({name: value})`, starting from
the emptied dict.  `f` stands for the external `xpath_to_param` codec and
`doc` for the pairs `xml_to_dict` returns on the document. -/
def inputsFromDoc {V : Type} (f : String → String) (doc : List (String × V)) :
    List (String × V) :=
  doc.foldl (fun acc xv => dictUpdate acc (f xv.1) xv.2) []

/-- The adapter state of an `XMLComponent` instance relevant to the claims:
the two template mappings, the working directory, the retention flag, the
optional base file, and the component's OpenMDAO `name`.  Paths are
character lists. -/
structure XMLComponentState (V : Type) where
  inputs_from_xml : List (String × V)
  outputs_from_xml : List (String × V)
  data_folder : List Char
  keep_files : Bool
  base_file : Option (List Char)
  name : List Char
  deriving DecidableEq

/-- `XMLComponent.set_inputs_from_xml` as a state transformer: clears the
input mapping and repopulates it from the document. -/
def set_inputs_from_xml {V : Type} (f : String → String)
    (s : XMLComponentState V) (doc : List (String × V)) : XMLComponentState V :=
  { s with inputs_from_xml := inputsFromDoc f doc }

/-- `XMLComponent.set_outputs_from_xml` as a state transformer. -/
def set_outputs_from_xml {V : Type} (f : String → String)
    (s : XMLComponentState V) (doc : List (String × V)) : XMLComponentState V :=
  { s with outputs_from_xml := inputsFromDoc f doc }

/-- `DisciplineComponent.execute(input_xml, output_xml)`: raises
`ValueError` when either argument is `None`, otherwise calls
`self.discipline.execute(input_xml, output_xml)`; the `.ok` value records
the pair of paths handed to the discipline. -/
def disciplineExecute (input_xml output_xml : Option String) :
    Except PyErr (String × String) :=
  if input_xml = none ∨ output_xml = none then
    Except.error PyErr.valueError
  else
    Except.ok (input_xml.getD "", output_xml.getD "")

/-! ## The delay-injecting expression evaluator (`core/exec_comp.py`) -/

/-- The instance state of `openlego.core.exec_comp.ExecComp`: the running
evaluation counter and the optional sleep duration fixed at construction.
The duration, a Python float of seconds, is modelled as a rational. -/
structure ExecCompState where
  number_of_computes : Nat
  sleep_time : Option ℚ
  deriving DecidableEq

/-- `ExecComp.__init__`: the counter starts at `0` and the sleep duration is
stored. -/
def execCompInit (sleep_time : Option ℚ) : ExecCompState :=
  { number_of_computes := 0, sleep_time := sleep_time }

/-- Observable actions of one `ExecComp.compute` call, in order. -/
inductive ExecEvent where
  /-- `OpenmdaoExecComp.compute(self, inputs, outputs)` — the wrapped
  evaluator's normal computation. -/
  | wrappedCompute
  /-- `time.sleep(self.sleep_time)` for the given duration. -/
  | sleep (duration : ℚ)
  deriving DecidableEq

/-- `ExecComp.compute`: run the wrapped computation, increment the counter,
then sleep exactly when a sleep duration was configured. -/
def execCompCompute (s : ExecCompState) : ExecCompState × List ExecEvent :=
  ({ s with number_of_computes := s.number_of_computes + 1 },
   ExecEvent.wrappedCompute ::
     (match s.sleep_time with
      | some d => [ExecEvent.sleep d]
      | none => []))

/-- `n` successive `compute` calls starting from state `s`. -/
def execCompIterate (s : ExecCompState) : Nat → ExecCompState
  | 0 => s
  | n + 1 => (execCompCompute (execCompIterate s n)).1

/-! ## `XMLComponent.xml_params_as_indep_vars` -/

/-- The relevant state of an OpenMDAO `Group` mutated by
`xml_params_as_indep_vars`: the `IndepVarComp`s added via
`group.add(alias, IndepVarComp(alias, val=values[index]), promotes=[alias])`
(recorded as (alias, value) pairs) and the connections made via
`group.connect(alias, param)`. -/
structure OMGroup (V : Type) where
  indep_vars : List (String × V)
  connections : List (String × String)
  deriving DecidableEq

/-- The mutation loop of `xml_params_as_indep_vars` over
`enumerate(params)`, with `aliases` already known to be a real list `al`
(the `aliases is None` branch of the loop body is unreachable in the
source, because the guard at the top of the method already raised a
`TypeError` in that case — see `xmlParamsAsIndepVars`).  Evaluating
`aliases[index]` out of range raises `IndexError`, keeping the mutations
already performed. -/
def indepVarLoop {V : Type} (al : List String) :
    List String → List V → Nat → OMGroup V → OMGroup V × Option PyErr
  | [], _, _, g => (g, none)
  | _ :: _, [], _, g => (g, none)
  | param :: params, v :: values, index, g =>
    match al.get? index with
    | none => (g, some PyErr.indexError)
    | some a =>
      indepVarLoop al params values (index + 1)
        { indep_vars := g.indep_vars ++ [(a, v)],
          connections := g.connections ++ [(a, param)] }

/-- `XMLComponent.xml_params_as_indep_vars(group, params, values, aliases)`.

The guard in the source is
`if len(params) != len(values) or (aliases is None and len(params) != len(aliases)):`
— when the lengths of `params` and `values` differ it raises `ValueError`;
otherwise, when `aliases` is `None`, evaluating `len(aliases)` (i.e.
`len(None)`) raises `TypeError`; when `aliases` is an actual list the
second conjunct short-circuits to `False` and its length is never compared.
Then every `param` must be a key of `inputs_from_xml` (else `ValueError`),
and finally the mutation loop runs.  The result pairs the (possibly
partially) mutated group with the raised exception, if any. -/
def xmlParamsAsIndepVars {V : Type} (inputs_from_xml : List (String × V))
    (group : OMGroup V) (params : List String) (values : List V)
    (aliases : Option (List String)) : OMGroup V × Option PyErr :=
  if params.length ≠ values.length then
    (group, some PyErr.valueError)
  else
    match aliases with
    | none => (group, some PyErr.typeError)
    | some al =>
      if params.all (fun p => (inputs_from_xml.map Prod.fst).contains p) then
        indepVarLoop al params values 0 group
      else
        (group, some PyErr.valueError)

/-! ## Timestamps and temporary file names (`XMLComponent.compute`) -/

/-- A wall-clock instant as `datetime.now()` observes it, at microsecond
resolution. -/
structure Timestamp where
  year : Nat
  month : Nat
  day : Nat
  hour : Nat
  minute : Nat
  second : Nat
  microsecond : Nat
  deriving DecidableEq

/-- A decimal digit character, as produced by `strftime`'s numeric
conversions. -/
def digitChar : Nat → Char
  | 0 => '0' | 1 => '1' | 2 => '2' | 3 => '3' | 4 => '4'
  | 5 => '5' | 6 => '6' | 7 => '7' | 8 => '8' | _ => '9'

/-- Zero-padded fixed-width decimal rendering of `n` to `w` digits (the
low-order `w` digits of `n`), as `strftime` renders an in-range field. -/
def padNum : Nat → Nat → List Char
  | 0, _ => []
  | w + 1, n => padNum w (n / 10) ++ [digitChar (n % 10)]

/-- `datetime.now().strftime('%Y%m%d%H%M%f')` — the file-name salt of
`XMLComponent.compute`.  Note the format string has no `%S`: the seconds
field of the instant is not rendered.  `%Y` is four digits, `%m`, `%d`,
`%H`, `%M` two digits each, `%f` six digits of microseconds. -/
def salt (t : Timestamp) : List Char :=
  padNum 4 t.year ++ padNum 2 t.month ++ padNum 2 t.day ++
    padNum 2 t.hour ++ padNum 2 t.minute ++ padNum 6 t.microsecond

/-- `os.path.join(a, b)` for POSIX paths (two arguments): an absolute `b`
replaces `a`; an empty `a` contributes nothing; otherwise a separator is
inserted unless `a` already ends in one. -/
def pathJoin (a b : List Char) : List Char :=
  if b.head? = some '/' then b
  else if a = [] then b
  else if a.getLast? = some '/' then a ++ b
  else a ++ '/' :: b

/-- `input_xml = os.path.join(self.data_folder, self.name + '_in_%s.xml' % salt)`. -/
def inputFileName (data_folder name : List Char) (t : Timestamp) : List Char :=
  pathJoin data_folder (name ++ "_in_".data ++ salt t ++ ".xml".data)

/-- `output_xml = os.path.join(self.data_folder, self.name + '_out_%s.xml' % salt)`. -/
def outputFileName (data_folder name : List Char) (t : Timestamp) : List Char :=
  pathJoin data_folder (name ++ "_out_".data ++ salt t ++ ".xml".data)

/-! ## `XMLComponent.compute` as an event trace -/

/-- Observable side effects of one `XMLComponent.compute` call, in
program order. -/
inductive Event where
  /-- `doc.write(input_xml, ...)` — the fresh input document is serialized
  to the given path. -/
  | writeInput (path : List Char)
  /-- `xml_merge(base, src)` — the file at `src` is merged into the file at
  `base`. -/
  | mergeBase (base src : List Char)
  /-- `self.execute(input, output)` — the tool is invoked with these two
  path arguments. -/
  | execute (input output : List Char)
  /-- `os.remove(path)` is attempted (an `OSError` is swallowed). -/
  | removeFile (path : List Char)
  /-- `xml_to_dict(path)` — the produced output file is read and parsed. -/
  | readOutput (path : List Char)
  deriving DecidableEq

/-- The output-extraction loop of `compute`:
`for xpath, value in xml_to_dict(output_xml).items(): name = xpath_to_param(xpath);
if name in self.outputs_from_xml: outputs[name] = value`.
`f` is the external `xpath_to_param`, `outDoc` the pairs the parse
returned, `declared` the `outputs_from_xml` mapping and `outputs` the
host's output vector (modelled as a dict). -/
def extractOutputs {V : Type} (f : String → String)
    (outDoc : List (String × V)) (declared : List (String × V))
    (outputs : List (String × V)) : List (String × V) :=
  outDoc.foldl
    (fun acc xv =>
      if (declared.map Prod.fst).contains (f xv.1) then
        dictUpdate acc (f xv.1) xv.2
      else acc)
    outputs

/-- `XMLComponent.compute(inputs, outputs)`.

Arguments beyond the instance state `s`: `t` is the instant `datetime.now()`
returns, `f` the external `xpath_to_param` codec, `outDoc` the (xpath,
value) pairs that parsing the produced output file would yield, and
`outputs` the host's output vector.  Returns the ordered trace of side
effects together with the updated output vector.

Mirrors the source:
1. build `input_xml` / `output_xml` names from the salt;
2. `if self.inputs_from_xml:` write the fresh input document and, if a base
   file is configured, merge it into the base file;
3. call `execute` with the base file (merging the output file into it
   afterwards) when one is configured, else with the fresh input path;
4. `if not self.keep_files:` attempt to remove the input file;
5. `if self.outputs_from_xml:` parse the output file, copy declared values
   into `outputs`, and (if not keeping files) attempt to remove it. -/
def compute {V : Type} (s : XMLComponentState V) (t : Timestamp)
    (f : String → String) (outDoc : List (String × V))
    (outputs : List (String × V)) : List Event × List (String × V) :=
  let input_xml := inputFileName s.data_folder s.name t
  let output_xml := outputFileName s.data_folder s.name t
  let writeEvents :=
    if s.inputs_from_xml.isEmpty then []
    else
      Event.writeInput input_xml ::
        (match s.base_file with
         | some b => [Event.mergeBase b input_xml]
         | none => [])
  let execEvents :=
    match s.base_file with
    | some b => [Event.execute b output_xml, Event.mergeBase b output_xml]
    | none => [Event.execute input_xml output_xml]
  let removeInputEvents :=
    if s.keep_files then [] else [Event.removeFile input_xml]
  let outputStep :=
    if s.outputs_from_xml.isEmpty then ([], outputs)
    else
      (Event.readOutput output_xml ::
         (if s.keep_files then [] else [Event.removeFile output_xml]),
       extractOutputs f outDoc s.outputs_from_xml outputs)
  (writeEvents ++ execEvents ++ removeInputEvents ++ outputStep.1,
   outputStep.2)

/-! ## Claim theorems -/

/-- C5: calling `set_inputs_from_xml` with document `d1` and then `d2`
leaves the input mapping equal to the one obtained from `d2` alone,
regardless of the prior state: replace semantics, last call wins. -/
theorem set_inputs_from_xml_replace {V : Type} (f : String → String)
    (s s' : XMLComponentState V) (d1 d2 : List (String × V)) :
    (set_inputs_from_xml f (set_inputs_from_xml f s d1) d2).inputs_from_xml =
      (set_inputs_from_xml f s' d2).inputs_from_xml := rfl

/-- C9: the evaluation counter of the delay-injecting `ExecComp` starts at
`0` at construction and equals `n` after `n` `compute` calls; each call
increments it by exactly one, and its trace performs the wrapped
computation first and then sleeps exactly when (and for as long as) a sleep
duration was configured at construction. -/
theorem execComp_counter_and_sleep (st : Option ℚ) (n : Nat)
    (s : ExecCompState) :
    (execCompInit st).number_of_computes = 0 ∧
    (execCompIterate (execCompInit st) n).number_of_computes = n ∧
    (execCompCompute s).1.number_of_computes = s.number_of_computes + 1 ∧
    (execCompCompute (execCompIterate (execCompInit st) n)).2 =
      ExecEvent.wrappedCompute ::
        (match st with
         | some d => [ExecEvent.sleep d]
         | none => []) := by
  have hsleep : ∀ m, (execCompIterate (execCompInit st) m).sleep_time = st := by
    intro m
    induction m with
    | zero => rfl
    | succ m ih => simpa [execCompIterate, execCompCompute] using ih
  refine ⟨rfl, ?_, rfl, ?_⟩
  · induction n with
    | zero => rfl
    | succ n ih => simp [execCompIterate, execCompCompute, ih]
  · simp [execCompCompute, hsleep n]

/-- C4 counterexample: `DisciplineComponent.execute` does not reject empty
path strings — with an empty (but not `None`) input path it simply
delegates, although the claim says both paths are required to be
non-empty. -/
theorem disciplineExecute_accepts_empty_path :
    disciplineExecute (some "") (some "out.xml") =
      Except.ok ("", "out.xml") := rfl

/-- C4 (amended): `DisciplineComponent.execute` raises `ValueError` if and
only if at least one of the two paths is omitted (`None`); otherwise —
including for empty strings — it delegates to the discipline's execute with
exactly those two paths. -/
theorem disciplineExecute_raises_iff_none (i o : Option String) :
    (disciplineExecute i o = Except.error PyErr.valueError ↔
      i = none ∨ o = none) ∧
    (∀ a b, i = some a → o = some b →
      disciplineExecute i o = Except.ok (a, b)) := by
  rcases i with _ | a <;> rcases o with _ | b <;>
    simp [disciplineExecute]

/-- Witness for the amended C4 theorem at concrete inputs. -/
theorem disciplineExecute_raises_iff_none_witness :
    disciplineExecute (some "in.xml") (some "out.xml") =
      Except.ok ("in.xml", "out.xml") ∧
    disciplineExecute none (some "out.xml") =
      Except.error PyErr.valueError :=
  ⟨(disciplineExecute_raises_iff_none (some "in.xml") (some "out.xml")).2
      "in.xml" "out.xml" rfl rfl,
   (disciplineExecute_raises_iff_none none (some "out.xml")).1.mpr
      (Or.inl rfl)⟩

/-- C1 (code bug): calling `xml_params_as_indep_vars` with `params` and
`values` of length 1 but two supplied `aliases` — mismatched lengths —
raises no error at all and mutates the group: an `IndepVarComp` is added
and a connection is made.  The guard's second conjunct reads
`aliases is None and len(params) != len(aliases)` instead of
`aliases is not None and ...`, so a supplied alias list is never
length-checked. -/
theorem xmlParamsAsIndepVars_mismatched_aliases_unchecked :
    xmlParamsAsIndepVars [("a", (1 : Nat))] ⟨[], []⟩ ["a"] [2]
        (some ["x", "y"]) =
      (⟨[("x", 2)], [("x", "a")]⟩, none) := by decide

/-- C2 (code bug): calling `xml_params_as_indep_vars` with `aliases`
omitted (`None`), matching `params`/`values` lengths and the param
declared as an input raises `TypeError` (from evaluating `len(None)` in
the guard) instead of succeeding; no independent variable is created and
no connection is made. -/
theorem xmlParamsAsIndepVars_none_aliases_raises :
    xmlParamsAsIndepVars [("x", (1 : Nat))] ⟨[], []⟩ ["x"] [1] none =
      (⟨[], []⟩, some PyErr.typeError) := by decide

/-! ## File-name uniqueness lemmas -/

/-- `padNum w n` always has exactly `w` characters. -/
theorem padNum_length (w : Nat) : ∀ n, (padNum w n).length = w := by
  induction w with
  | zero => intro n; rfl
  | succ w ih =>
    intro n
    simp [padNum, ih]

/-- The numeric value of a digit character; left inverse of `digitChar` on
digits. -/
def digitVal (c : Char) : Nat :=
  c.toNat - 48

theorem digitVal_digitChar {n : Nat} (h : n < 10) :
    digitVal (digitChar n) = n := by
  interval_cases n <;> rfl

/-- Decode a fixed-width decimal rendering back to the number. -/
def unpadNum (cs : List Char) : Nat :=
  cs.foldl (fun acc c => 10 * acc + digitVal c) 0

theorem unpadNum_append (cs : List Char) (c : Char) (a : Nat) :
    (cs ++ [c]).foldl (fun acc c => 10 * acc + digitVal c) a =
      10 * (cs.foldl (fun acc c => 10 * acc + digitVal c) a) + digitVal c := by
  simp

theorem unpadNum_padNum : ∀ w n, n < 10 ^ w → unpadNum (padNum w n) = n := by
  intro w
  induction w with
  | zero => intro n hn; interval_cases n; rfl
  | succ w ih =>
    intro n hn
    have hdiv : n / 10 < 10 ^ w := by
      have : n < 10 ^ w * 10 := by
        calc n < 10 ^ (w + 1) := hn
        _ = 10 ^ w * 10 := by ring
      omega
    have hmod : n % 10 < 10 := Nat.mod_lt _ (by omega)
    calc unpadNum (padNum (w + 1) n)
        = 10 * unpadNum (padNum w (n / 10)) + digitVal (digitChar (n % 10)) := by
          simp [padNum, unpadNum, unpadNum_append]
      _ = 10 * (n / 10) + n % 10 := by rw [ih _ hdiv, digitVal_digitChar hmod]
      _ = n := by omega

/-- `padNum w` is injective on numbers below `10 ^ w`. -/
theorem padNum_inj {w n m : Nat} (hn : n < 10 ^ w) (hm : m < 10 ^ w)
    (h : padNum w n = padNum w m) : n = m := by
  have := congrArg unpadNum h
  rwa [unpadNum_padNum w n hn, unpadNum_padNum w m hm] at this

/-- `os.path.join` with a fixed first argument is injective on second
arguments that agree on their first character. -/
theorem pathJoin_inj {a b1 b2 : List Char} (hh : b1.head? = b2.head?)
    (h : pathJoin a b1 = pathJoin a b2) : b1 = b2 := by
  by_cases hb : b1.head? = some '/'
  · have hb2 : b2.head? = some '/' := by rw [← hh]; exact hb
    simpa [pathJoin, hb, hb2] using h
  · have hb2 : ¬b2.head? = some '/' := by rw [← hh]; exact hb
    by_cases ha : a = []
    · simpa [pathJoin, hb, hb2, ha] using h
    · by_cases hl : a.getLast? = some '/' <;>
        simpa [pathJoin, hb, hb2, ha, hl] using h

/-- The input and output file of one `compute` call never share a name:
the `'_in_'` and `'_out_'` infixes differ. -/
theorem inputFileName_ne_outputFileName (folder name : List Char)
    (t : Timestamp) :
    inputFileName folder name t ≠ outputFileName folder name t := by
  intro h
  unfold inputFileName outputFileName at h
  have hh : (name ++ "_in_".data ++ salt t ++ ".xml".data).head? =
      (name ++ "_out_".data ++ salt t ++ ".xml".data).head? := by
    cases name <;> rfl
  have hb := pathJoin_inj hh h
  have h0 := List.append_cancel_right hb
  have h1 := List.append_cancel_left (List.append_cancel_right h0)
  have hsl : (salt t).length = 18 := by
    simp [salt, padNum_length]
  have e1 : "_in_".data = ['_', 'i', 'n', '_'] := rfl
  have e2 : "_out_".data = ['_', 'o', 'u', 't', '_'] := rfl
  rw [e1, e2] at h1
  have hlen := congrArg List.length h1
  simp at hlen

/-- C3 counterexample: two distinct instants one second apart — distinct
microsecond-resolution timestamps — produce identical input- and
output-file names, because the format string `'%Y%m%d%H%M%f'` omits the
seconds field.  The name-generating function is therefore not injective on
distinct microsecond-resolution timestamps. -/
theorem compute_filenames_collide_across_seconds :
    (⟨2020, 1, 1, 0, 0, 1, 0⟩ : Timestamp) ≠ ⟨2020, 1, 1, 0, 0, 2, 0⟩ ∧
    inputFileName [] ['x'] ⟨2020, 1, 1, 0, 0, 1, 0⟩ =
      inputFileName [] ['x'] ⟨2020, 1, 1, 0, 0, 2, 0⟩ ∧
    outputFileName [] ['x'] ⟨2020, 1, 1, 0, 0, 1, 0⟩ =
      outputFileName [] ['x'] ⟨2020, 1, 1, 0, 0, 2, 0⟩ := by
  refine ⟨by decide, rfl, rfl⟩

/-- C3 (amended): two `compute` calls at distinct instants within the same
second — in particular within the same millisecond — never collide on the
generated temporary input- and output-file names; but injectivity does not
extend to all distinct microsecond-resolution timestamps, since the
seconds field is omitted from the salt. -/
theorem compute_filenames_distinct_same_second (folder name : List Char)
    (t1 t2 : Timestamp)
    (hY : t1.year = t2.year) (hMo : t1.month = t2.month)
    (hD : t1.day = t2.day) (hH : t1.hour = t2.hour)
    (hMi : t1.minute = t2.minute) (hS : t1.second = t2.second)
    (hu1 : t1.microsecond < 1000000) (hu2 : t2.microsecond < 1000000)
    (hne : t1 ≠ t2) :
    inputFileName folder name t1 ≠ inputFileName folder name t2 ∧
    outputFileName folder name t1 ≠ outputFileName folder name t2 := by
  have hus : t1.microsecond ≠ t2.microsecond := by
    intro h
    exact hne (by cases t1; cases t2; simp_all)
  have h10 : (1000000 : Nat) = 10 ^ 6 := by norm_num
  have hsalt : salt t1 ≠ salt t2 := by
    intro h
    apply hus
    unfold salt at h
    rw [hY, hMo, hD, hH, hMi] at h
    exact padNum_inj (h10 ▸ hu1) (h10 ▸ hu2) (List.append_cancel_left h)
  constructor
  · intro h
    unfold inputFileName at h
    have hh : (name ++ "_in_".data ++ salt t1 ++ ".xml".data).head? =
        (name ++ "_in_".data ++ salt t2 ++ ".xml".data).head? := by
      cases name <;> rfl
    have hb := pathJoin_inj hh h
    exact hsalt (List.append_cancel_left (List.append_cancel_right hb))
  · intro h
    unfold outputFileName at h
    have hh : (name ++ "_out_".data ++ salt t1 ++ ".xml".data).head? =
        (name ++ "_out_".data ++ salt t2 ++ ".xml".data).head? := by
      cases name <;> rfl
    have hb := pathJoin_inj hh h
    exact hsalt (List.append_cancel_left (List.append_cancel_right hb))

/-- Witness for the amended C3 theorem: two instants in the same
millisecond get distinct file names. -/
theorem compute_filenames_distinct_same_second_witness :
    (⟨2020, 1, 1, 0, 0, 0, 1⟩ : Timestamp) ≠ ⟨2020, 1, 1, 0, 0, 0, 2⟩ ∧
    inputFileName [] ['x'] ⟨2020, 1, 1, 0, 0, 0, 1⟩ ≠
      inputFileName [] ['x'] ⟨2020, 1, 1, 0, 0, 0, 2⟩ ∧
    outputFileName [] ['x'] ⟨2020, 1, 1, 0, 0, 0, 1⟩ ≠
      outputFileName [] ['x'] ⟨2020, 1, 1, 0, 0, 0, 2⟩ :=
  ⟨by decide,
   (compute_filenames_distinct_same_second [] ['x'] ⟨2020, 1, 1, 0, 0, 0, 1⟩
      ⟨2020, 1, 1, 0, 0, 0, 2⟩ rfl rfl rfl rfl rfl rfl (by decide) (by decide)
      (by decide)).1,
   (compute_filenames_distinct_same_second [] ['x'] ⟨2020, 1, 1, 0, 0, 0, 1⟩
      ⟨2020, 1, 1, 0, 0, 0, 2⟩ rfl rfl rfl rfl rfl rfl (by decide) (by decide)
      (by decide)).2⟩

/-- C6: with a base document configured and inputs declared, `compute`
writes the fresh input document, merges it into the base document, then
invokes `execute` with the base document path (not the fresh input path)
as input argument, and merges the produced output file into the base
document right after `execute` returns. -/
theorem compute_base_file_protocol {V : Type} (s : XMLComponentState V)
    (t : Timestamp) (f : String → String) (outDoc outputs : List (String × V))
    (b : List Char) (hb : s.base_file = some b)
    (hin : s.inputs_from_xml ≠ []) :
    ∃ rest, (compute s t f outDoc outputs).1 =
      Event.writeInput (inputFileName s.data_folder s.name t) ::
      Event.mergeBase b (inputFileName s.data_folder s.name t) ::
      Event.execute b (outputFileName s.data_folder s.name t) ::
      Event.mergeBase b (outputFileName s.data_folder s.name t) :: rest := by
  have hin' : s.inputs_from_xml.isEmpty = false := by simp [hin]
  refine ⟨(if s.keep_files then [] else
      [Event.removeFile (inputFileName s.data_folder s.name t)]) ++
    (if s.outputs_from_xml.isEmpty then ([], outputs) else
      (Event.readOutput (outputFileName s.data_folder s.name t) ::
         (if s.keep_files then [] else
           [Event.removeFile (outputFileName s.data_folder s.name t)]),
       extractOutputs f outDoc s.outputs_from_xml outputs)).1, ?_⟩
  simp [compute, hb, hin']

/-- C7: with an empty declared output mapping, `compute` never reads or
parses any output file and returns the host's output vector unchanged. -/
theorem compute_no_outputs_no_read {V : Type} (s : XMLComponentState V)
    (t : Timestamp) (f : String → String)
    (outDoc outputs : List (String × V))
    (h : s.outputs_from_xml = []) :
    (∀ p, Event.readOutput p ∉ (compute s t f outDoc outputs).1) ∧
    (compute s t f outDoc outputs).2 = outputs := by
  obtain ⟨ix, ox, df, kf, bf, nm⟩ := s
  simp only at h
  subst h
  constructor
  · intro p hp
    rcases bf with _ | b <;> cases kf <;> cases ix <;>
      simp [compute] at hp
  · rcases bf with _ | b <;> cases kf <;> cases ix <;> simp [compute]

/-- C10: with an empty declared output mapping and `keep_files = False`,
`compute` never deletes the generated output file: output-file cleanup
only happens in the branch taken when at least one output is declared
(only the input file is removed). -/
theorem compute_no_outputs_no_output_delete {V : Type}
    (s : XMLComponentState V) (t : Timestamp) (f : String → String)
    (outDoc outputs : List (String × V))
    (h : s.outputs_from_xml = []) (hk : s.keep_files = false) :
    Event.removeFile (outputFileName s.data_folder s.name t) ∉
      (compute s t f outDoc outputs).1 := by
  intro hp
  have hne := inputFileName_ne_outputFileName s.data_folder s.name t
  obtain ⟨ix, ox, df, kf, bf, nm⟩ := s
  simp only at h hk hne hp
  subst h
  subst hk
  rcases bf with _ | b <;> cases ix <;>
    simp [compute] at hp <;> exact hne hp.symm

/-- C8 counterexample: with no inputs declared (and no base file),
`compute` still calls `execute` with the generated input-file path — a
non-empty path to a file that was never written — as its input argument,
not with `None` or an empty placeholder. -/
theorem compute_no_inputs_execute_gets_path :
    ((compute (⟨[], [], [], false, none, ['x']⟩ : XMLComponentState Nat)
        ⟨2020, 1, 2, 3, 4, 5, 6⟩ id [] []).1.head? =
      some (Event.execute "x_in_202001020304000006.xml".data
        "x_out_202001020304000006.xml".data)) ∧
    "x_in_202001020304000006.xml".data ≠ ([] : List Char) := by decide

/-- C8 (amended): with an empty declared input mapping, the
input-document-writing step is skipped entirely — no input file is written
and nothing is merged from the (unwritten) input file into the base
document — and the first event of the call is the `execute` invocation, whose input
argument is the generated input-file path (or the base document path, when
one is configured). -/
theorem compute_no_inputs_skips_write {V : Type} (s : XMLComponentState V)
    (t : Timestamp) (f : String → String)
    (outDoc outputs : List (String × V))
    (h : s.inputs_from_xml = []) :
    (∀ p, Event.writeInput p ∉ (compute s t f outDoc outputs).1) ∧
    (∀ b, Event.mergeBase b (inputFileName s.data_folder s.name t) ∉
      (compute s t f outDoc outputs).1) ∧
    ((compute s t f outDoc outputs).1.head? =
      some (Event.execute
        (match s.base_file with
         | some b => b
         | none => inputFileName s.data_folder s.name t)
        (outputFileName s.data_folder s.name t))) := by
  have hne := inputFileName_ne_outputFileName s.data_folder s.name t
  obtain ⟨ix, ox, df, kf, bf, nm⟩ := s
  simp only at h hne ⊢
  subst h
  refine ⟨?_, ?_, ?_⟩
  · intro p hp
    rcases bf with _ | b <;> cases kf <;> cases ox <;>
      simp [compute] at hp
  · intro b hp
    rcases bf with _ | b' <;> cases kf <;> cases ox <;>
      simp [compute] at hp <;> exact hne hp.2
  · rcases bf with _ | b <;> cases ox <;> simp [compute]

/-- Witness for the C6 theorem at a concrete adapter state. -/
theorem compute_base_file_protocol_witness :
    ∃ rest,
      (compute (⟨[("i", 1)], [], [], false, some ['b'], ['x']⟩ :
          XMLComponentState Nat) ⟨2020, 1, 2, 3, 4, 5, 6⟩ id [] []).1 =
        Event.writeInput (inputFileName [] ['x'] ⟨2020, 1, 2, 3, 4, 5, 6⟩) ::
        Event.mergeBase ['b']
          (inputFileName [] ['x'] ⟨2020, 1, 2, 3, 4, 5, 6⟩) ::
        Event.execute ['b']
          (outputFileName [] ['x'] ⟨2020, 1, 2, 3, 4, 5, 6⟩) ::
        Event.mergeBase ['b']
          (outputFileName [] ['x'] ⟨2020, 1, 2, 3, 4, 5, 6⟩) :: rest :=
  compute_base_file_protocol
    (⟨[("i", 1)], [], [], false, some ['b'], ['x']⟩ : XMLComponentState Nat)
    ⟨2020, 1, 2, 3, 4, 5, 6⟩ id [] [] ['b'] rfl (by decide)

/-- Witness for the C7 theorem at a concrete adapter state. -/
theorem compute_no_outputs_no_read_witness :
    Event.readOutput (outputFileName [] ['x'] ⟨2020, 1, 2, 3, 4, 5, 6⟩) ∉
      (compute (⟨[("i", 1)], [], [], false, none, ['x']⟩ :
        XMLComponentState Nat) ⟨2020, 1, 2, 3, 4, 5, 6⟩ id [] [("o", 5)]).1 ∧
    (compute (⟨[("i", 1)], [], [], false, none, ['x']⟩ :
        XMLComponentState Nat) ⟨2020, 1, 2, 3, 4, 5, 6⟩ id [] [("o", 5)]).2 =
      [("o", 5)] :=
  ⟨(compute_no_outputs_no_read
      (⟨[("i", 1)], [], [], false, none, ['x']⟩ : XMLComponentState Nat)
      ⟨2020, 1, 2, 3, 4, 5, 6⟩ id [] [("o", 5)] rfl).1 _,
   (compute_no_outputs_no_read
      (⟨[("i", 1)], [], [], false, none, ['x']⟩ : XMLComponentState Nat)
      ⟨2020, 1, 2, 3, 4, 5, 6⟩ id [] [("o", 5)] rfl).2⟩

/-- Witness for the C10 theorem at a concrete adapter state. -/
theorem compute_no_outputs_no_output_delete_witness :
    Event.removeFile (outputFileName [] ['x'] ⟨2020, 1, 2, 3, 4, 5, 6⟩) ∉
      (compute (⟨[("i", 1)], [], [], false, none, ['x']⟩ :
        XMLComponentState Nat) ⟨2020, 1, 2, 3, 4, 5, 6⟩ id [] [("o", 5)]).1 :=
  compute_no_outputs_no_output_delete
    (⟨[("i", 1)], [], [], false, none, ['x']⟩ : XMLComponentState Nat)
    ⟨2020, 1, 2, 3, 4, 5, 6⟩ id [] [("o", 5)] rfl rfl

/-- Witness for the amended C8 theorem at a concrete adapter state. -/
theorem compute_no_inputs_skips_write_witness :
    Event.writeInput (inputFileName [] ['x'] ⟨2020, 1, 2, 3, 4, 5, 6⟩) ∉
      (compute (⟨[], [("o", 5)], [], false, some ['b'], ['x']⟩ :
        XMLComponentState Nat) ⟨2020, 1, 2, 3, 4, 5, 6⟩ id [] []).1 ∧
    Event.mergeBase ['b'] (inputFileName [] ['x'] ⟨2020, 1, 2, 3, 4, 5, 6⟩) ∉
      (compute (⟨[], [("o", 5)], [], false, some ['b'], ['x']⟩ :
        XMLComponentState Nat) ⟨2020, 1, 2, 3, 4, 5, 6⟩ id [] []).1 ∧
    (compute (⟨[], [("o", 5)], [], false, some ['b'], ['x']⟩ :
        XMLComponentState Nat) ⟨2020, 1, 2, 3, 4, 5, 6⟩ id [] []).1.head? =
      some (Event.execute ['b']
        (outputFileName [] ['x'] ⟨2020, 1, 2, 3, 4, 5, 6⟩)) :=
  ⟨(compute_no_inputs_skips_write
      (⟨[], [("o", 5)], [], false, some ['b'], ['x']⟩ : XMLComponentState Nat)
      ⟨2020, 1, 2, 3, 4, 5, 6⟩ id [] [] rfl).1 _,
   (compute_no_inputs_skips_write
      (⟨[], [("o", 5)], [], false, some ['b'], ['x']⟩ : XMLComponentState Nat)
      ⟨2020, 1, 2, 3, 4, 5, 6⟩ id [] [] rfl).2.1 _,
   (compute_no_inputs_skips_write
      (⟨[], [("o", 5)], [], false, some ['b'], ['x']⟩ : XMLComponentState Nat)
      ⟨2020, 1, 2, 3, 4, 5, 6⟩ id [] [] rfl).2.2⟩
